import Mathlib

/-!
Verification of the render-extract-reason-submit pipeline of `src/main.py`
(a Flask quiz-solving service). The Python functions are shallowly embedded
as Lean definitions: network, browser and PDF-library effects are passed in
explicitly as data (an `HttpResponse`, a `NavResult`, a parsed page list),
machine behaviour that the claims depend on (Python dict assignment order,
Python truthiness, `str.find`/`str.rfind`/slicing, `json.loads`) is modelled
directly, and each claim of the specification is settled as a theorem about
these definitions.
-/

/-- A JSON value, as Python's `json` module and the pipeline's dicts see it.
Objects are insertion-ordered key/value lists (Python dicts preserve insertion
order); numbers are modelled as integers, the only numeric shape the pipeline's
claims exercise. -/
inductive Json where
  | null : Json
  | bool : Bool → Json
  | num : Int → Json
  | str : String → Json
  | arr : List Json → Json
  | obj : List (String × Json) → Json

/-- Lookup in an insertion-ordered object: the value at the first binding of
key `k`, when one exists. -/
def getKey (kvs : List (String × Json)) (k : String) : Option Json :=
  match kvs with
  | [] => none
  | (k', v) :: rest => if k' = k then some v else getKey rest k

/-- Python `d.get(k)`: `None` both for a missing key and for an explicit JSON
null, so both collapse to `Json.null`. -/
def pyGet (kvs : List (String × Json)) (k : String) : Json :=
  (getKey kvs k).getD .null

/-- Python `d[k] = v` on an insertion-ordered dict: an existing binding is
overwritten in place (its position kept); a new key is appended at the end. -/
def setKey (kvs : List (String × Json)) (k : String) (v : Json) :
    List (String × Json) :=
  match kvs with
  | [] => [(k, v)]
  | (k', v') :: rest => if k' = k then (k', v) :: rest else (k', v') :: setKey rest k v

/-- Python truthiness of a JSON value (`if x:`): null, False, 0, "", [], {}
are falsy, everything else truthy. -/
def jsonTruthy : Json → Bool
  | .null => false
  | .bool b => b
  | .num n => n != 0
  | .str s => s != ""
  | .arr l => !l.isEmpty
  | .obj l => !l.isEmpty

/-- Python `x is None` on a JSON value. -/
def Json.isNull : Json → Bool
  | .null => true
  | _ => false

/-- The character written `\x7b` (an opening curly brace). -/
def lbrace : Char := Char.ofNat 123

/-- The character written `\x7d` (a closing curly brace). -/
def rbrace : Char := Char.ofNat 125

/-- Drop leading JSON whitespace. -/
def skipWs (cs : List Char) : List Char :=
  cs.dropWhile fun c => c == ' ' || c == '\t' || c == '\n' || c == '\r'

/-- Scan the body of a JSON string literal (the opening quote already
consumed): the decoded characters and the rest of the input after the closing
quote. Handles the common escapes; fails on an unterminated or ill-escaped
string, as `json.loads` does. -/
def jstrAux : List Char → Option (List Char × List Char)
  | [] => none
  | c :: rest =>
    if c == '"' then some ([], rest)
    else if c == '\\' then
      match rest with
      | [] => none
      | e :: rest2 =>
        let esc : Option Char :=
          if e == '"' then some '"'
          else if e == '\\' then some '\\'
          else if e == '/' then some '/'
          else if e == 'n' then some '\n'
          else if e == 't' then some '\t'
          else if e == 'r' then some '\r'
          else if e == 'b' then some (Char.ofNat 8)
          else if e == 'f' then some (Char.ofNat 12)
          else none
        match esc with
        | none => none
        | some ch =>
          match jstrAux rest2 with
          | some (cs, rem) => some (ch :: cs, rem)
          | none => none
    else
      match jstrAux rest with
      | some (cs, rem) => some (c :: cs, rem)
      | none => none

/-- Decimal digits to a natural number. -/
def digitsToNat (ds : List Char) : Nat :=
  ds.foldl (fun acc c => acc * 10 + (c.toNat - 48)) 0

/-- Parse a JSON integer (optional minus sign, then digits). -/
def jnum (cs : List Char) : Option (Json × List Char) :=
  let p : Bool × List Char :=
    match cs with
    | c :: rest => if c == '-' then (true, rest) else (false, cs)
    | [] => (false, cs)
  let ds := p.2.takeWhile (·.isDigit)
  let rest := p.2.dropWhile (·.isDigit)
  if ds.isEmpty then none
  else
    let n : Int := Int.ofNat (digitsToNat ds)
    some (.num (if p.1 then -n else n), rest)

/-- Expect the literal characters `lit` at the head of the input. -/
def dropLit (lit : List Char) (cs : List Char) : Option (List Char) :=
  if cs.take lit.length == lit then some (cs.drop lit.length) else none

mutual

/-- Fuel-indexed recursive-descent JSON value reader, modelling `json.loads`'s
grammar (strings, integers, `true`/`false`/`null`, arrays, objects). -/
def jval : Nat → List Char → Option (Json × List Char)
  | 0, _ => none
  | fuel + 1, cs =>
    match skipWs cs with
    | [] => none
    | c :: rest =>
      if c == '"' then
        match jstrAux rest with
        | some (content, rem) => some (.str (String.mk content), rem)
        | none => none
      else if c == lbrace then
        match skipWs rest with
        | d :: rest2 =>
          if d == rbrace then some (.obj [], rest2)
          else
            match jobjItems fuel (skipWs rest) with
            | some (kvs, rem) => some (.obj kvs, rem)
            | none => none
        | [] => none
      else if c == '[' then
        match skipWs rest with
        | d :: rest2 =>
          if d == ']' then some (.arr [], rest2)
          else
            match jarrItems fuel (skipWs rest) with
            | some (vs, rem) => some (.arr vs, rem)
            | none => none
        | [] => none
      else if c == 't' then
        match dropLit ['t', 'r', 'u', 'e'] (c :: rest) with
        | some rem => some (.bool true, rem)
        | none => none
      else if c == 'f' then
        match dropLit ['f', 'a', 'l', 's', 'e'] (c :: rest) with
        | some rem => some (.bool false, rem)
        | none => none
      else if c == 'n' then
        match dropLit ['n', 'u', 'l', 'l'] (c :: rest) with
        | some rem => some (.null, rem)
        | none => none
      else jnum (c :: rest)

/-- One or more `"key": value` members, then the closing brace. -/
def jobjItems : Nat → List Char → Option (List (String × Json) × List Char)
  | 0, _ => none
  | fuel + 1, cs =>
    match skipWs cs with
    | c :: rest =>
      if c == '"' then
        match jstrAux rest with
        | some (key, rest2) =>
          match skipWs rest2 with
          | d :: rest3 =>
            if d == ':' then
              match jval fuel rest3 with
              | some (v, rest4) =>
                match skipWs rest4 with
                | e :: rest5 =>
                  if e == ',' then
                    match jobjItems fuel rest5 with
                    | some (kvs, rem) => some ((String.mk key, v) :: kvs, rem)
                    | none => none
                  else if e == rbrace then some ([(String.mk key, v)], rest5)
                  else none
                | [] => none
              | none => none
            else none
          | [] => none
        | none => none
      else none
    | [] => none

/-- One or more array elements, then the closing bracket. -/
def jarrItems : Nat → List Char → Option (List Json × List Char)
  | 0, _ => none
  | fuel + 1, cs =>
    match jval fuel cs with
    | some (v, rest) =>
      match skipWs rest with
      | e :: rest2 =>
        if e == ',' then
          match jarrItems fuel rest2 with
          | some (vs, rem) => some (v :: vs, rem)
          | none => none
        else if e == ']' then some ([v], rest2)
        else none
      | [] => none
    | none => none

end

/-- `json.loads`: decode the whole input as one JSON value (`none` models a
raised `JSONDecodeError`, including trailing non-whitespace). The fuel
`s.length + 1` suffices: every recursive descent consumes at least one
character. -/
def json_loads (s : String) : Option Json :=
  match jval (s.length + 1) s.data with
  | some (v, rest) => if (skipWs rest).isEmpty then some v else none
  | none => none

/-- Python `s.find(c)`: index of the first occurrence (`none` models -1). -/
def pyFind (s : String) (c : Char) : Option Nat :=
  s.data.findIdx? (fun x => x == c)

/-- Python `s.rfind(c)`: index of the last occurrence (`none` models -1). -/
def pyRfind (s : String) (c : Char) : Option Nat :=
  match s.data.reverse.findIdx? (fun x => x == c) with
  | some i => some (s.data.length - 1 - i)
  | none => none

/-- Python `s[a:b]` for `0 ≤ a ≤ b` (character indices). -/
def pySlice (s : String) (a b : Nat) : String :=
  String.mk ((s.data.drop a).take (b - a))

example : json_loads "\x7b\"answer\": 42, \"submit_url\": null\x7d" =
    some (.obj [("answer", .num 42), ("submit_url", .null)]) := by rfl

example : json_loads "\x7bnot json\x7d" = none := by rfl

example : pyFind "a\x7bc\x7d" lbrace = some 1 := by rfl

example : pyRfind "a\x7bc\x7d" rbrace = some 3 := by rfl

/-! ## Bounded downloader (`download_file`, src/main.py lines 39-49) -/

/-- What `requests.get(url, stream=True)` yields before any body bytes are
consumed: the HTTP status, the parsed `content-length` header when present
(`int(resp.headers.get("content-length", 0) or 0)` makes an absent header 0),
the body bytes that `resp.content` would produce, and the `content-type`
header. -/
structure HttpResponse where
  status : Nat
  contentLength : Option Nat
  body : List Nat
  contentType : String

/-- The exceptions `download_file` raises: `resp.raise_for_status()` for a
4xx/5xx status, and `ValueError` with the source's two messages for the size
cap. -/
inductive DownloadError where
  | httpError (status : Nat)
  | valueError (msg : String)

/-- `download_file(url, session, max_bytes)`: raise for a non-success status;
fail fast on a declared content-length above the cap; otherwise read the body
and re-check its true size. The second component counts the body bytes the
call consumed (`resp.content` is only touched after the header check, because
the request was opened with `stream=True`). -/
def download_file (resp : HttpResponse) (max_bytes : Nat := 5000000) :
    Except DownloadError (List Nat × String) × Nat :=
  if 400 ≤ resp.status then (.error (.httpError resp.status), 0)
  else
    let length := resp.contentLength.getD 0
    if length ≠ 0 ∧ max_bytes < length then
      (.error (.valueError "Remote file too large"), 0)
    else
      let data := resp.body
      if max_bytes < data.length then
        (.error (.valueError "Downloaded file exceeds limit"), data.length)
      else (.ok (data, resp.contentType), data.length)

/-! ## PDF text extraction (`extract_text_from_pdf_bytes`, lines 52-64) -/

/-- What `pdfplumber.open` does with the written-out bytes: either the parse
raises (`.error` with the exception text) or it yields the document's pages in
order, each page's `extract_text()` being `none` when the page has no
extractable text. -/
def PdfParse := Except String (List (Option String))

/-- `extract_text_from_pdf_bytes(pdf_bytes)`: on any parse failure return
`None`; otherwise join the per-page texts (`page.extract_text() or ""`) with a
blank-line separator, in page order. -/
def extract_text_from_pdf_bytes (parsed : PdfParse) : Option String :=
  match parsed with
  | .error _ => none
  | .ok pages => some (String.intercalate "\n\n" (pages.map fun t => t.getD ""))

/-! ## Reasoning call (`call_gemini_for_solution`, lines 111-161) -/

/-- The observable outcome of `model.generate_content` followed by
`_extract_text_from_gemini_response`: either a raw text reply, or an
exception (network failure, backend error, or a response shape whose probing
raised) with its `str(e)` detail. The prompt assembly (lines 112-137) only
feeds the oracle, so it is absorbed into which `BackendResult` the environment
hands us. -/
inductive BackendResult where
  | ok (rawText : String)
  | exn (detail : String)

/-- The sentinel instruction built by the `except` branch (lines 155-161). -/
def sentinel_solution (detail : String) : Json :=
  .obj [("answer", .null), ("submit_url", .null), ("payload", .null),
        ("reason", .str "model_error"), ("model_exception", .str detail)]

/-- The `str(e)` rendering of the `json.JSONDecodeError` raised on the given
undecodable text; the exact wording is library-internal and irrelevant to the
pipeline, only that it is embedded in the sentinel. -/
def decode_error_message (json_text : String) : String :=
  "JSONDecodeError: " ++ json_text

/-- Lines 144-150: locate the span from the first `\x7b` to the last `\x7d`
of the raw reply and take it as the JSON text; when no such span exists
(`start == -1 or end == -1 or end <= start`), keep the raw text. -/
def locate_json_span (text_out : String) : String :=
  match pyFind text_out lbrace, pyRfind text_out rbrace with
  | some s, some e => if s < e then pySlice text_out s (e + 1) else text_out
  | some _, none => text_out
  | none, _ => text_out

/-- `call_gemini_for_solution` (lines 139-161): on a successful backend reply,
decode the located span with `json.loads`; any exception in the `try` block —
the backend call itself or the decode — falls to the `except` branch, which
returns the `model_error` sentinel instead of raising. -/
def call_gemini_for_solution (backend : BackendResult) : Json :=
  match backend with
  | .exn detail => sentinel_solution detail
  | .ok text_out =>
    let json_text := locate_json_span text_out
    match json_loads json_text with
    | some solution => solution
    | none => sentinel_solution (decode_error_message json_text)

/-! ## Resource collection (`render_page_and_collect`, lines 164-225) -/

/-- The ambient web and library behaviour the collector consults, passed in as
data: URL resolution (`urljoin`), path extraction (`urlparse(full).path`), the
HTTP response a GET of a URL produces (`none` when the GET itself raises),
`bytes.decode("utf-8", errors="ignore")`, and the PDF library's view of a byte
sequence. -/
structure Web where
  urljoin : String → String → String
  urlpath : String → String
  response : String → Option HttpResponse
  decode : List Nat → String
  pdfParse : List Nat → PdfParse

/-- One `<a>` element as the scanning loop sees it: probing it raised (the
inner `except` logs and continues), or it has no `href`, or it has one. -/
inductive Anchor where
  | errored (msg : String)
  | link (href : Option String)

/-- A collected file entry (`file_entry` dict): filename, raw bytes, the
extracted text when the entry is text-like, and the `is_text` flag. -/
structure FileEntry where
  filename : String
  bytes : List Nat
  text : Option String
  is_text : Bool

/-- `os.path.basename` on a slash-separated path. -/
def basename (p : String) : String :=
  String.mk (p.data.reverse.takeWhile (fun c => c != '/')).reverse

/-- The recognized downloadable extensions (line 192). -/
def matchesExt (path : String) : Bool :=
  [".pdf", ".csv", ".xlsx", ".xls", ".json", ".zip"].any fun e => path.endsWith e

/-- `download_file(full)` as the collector calls it: `none` when the GET or
the size/status checks raise (any exception is logged and scanning
continues). -/
def tryDownload (w : Web) (full : String) : Option (List Nat × String) :=
  match w.response full with
  | none => none
  | some resp => (download_file resp).1.toOption

/-- Lines 196-215: build the `file_entry` for downloaded bytes. Text-like when
the content type starts with `text/` or the filename ends in `.csv`/`.json`
(decoded with errors ignored); a `.pdf` gets its extracted text (or `""` when
extraction returns `None`); anything else is opaque binary. -/
def make_file_entry (w : Web) (path : String) (data : List Nat)
    (content_type : String) : FileEntry :=
  let filename := if basename path = "" then "downloaded" else basename path
  if content_type.startsWith "text/" || filename.endsWith ".csv"
      || filename.endsWith ".json" then
    { filename := filename, bytes := data, text := some (w.decode data),
      is_text := true }
  else if filename.endsWith ".pdf" then
    { filename := filename, bytes := data,
      text := some ((extract_text_from_pdf_bytes (w.pdfParse data)).getD ""),
      is_text := true }
  else { filename := filename, bytes := data, text := none, is_text := false }

/-- The anchor-scanning loop (lines 181-222): in document order, skip anchors
that raise or lack a truthy `href`; resolve the href, and when the lowercased
path has a recognized extension, attempt the download — on failure log and
continue, on success append the entry and `break`. -/
def collect_files (w : Web) (url : String) : List Anchor → List FileEntry
  | [] => []
  | a :: rest =>
    match a with
    | .errored _ => collect_files w url rest
    | .link none => collect_files w url rest
    | .link (some href) =>
      if href = "" then collect_files w url rest
      else
        let full := w.urljoin url href
        let path := (w.urlpath full).toLower
        if matchesExt path then
          match tryDownload w full with
          | none => collect_files w url rest
          | some (data, content_type) => [make_file_entry w path data content_type]
        else collect_files w url rest

/-! ## Rendering (`render_page_and_collect`, lines 168-180) -/

/-- The outcome of one `page.goto` call: success, `playwright`'s
`TimeoutError`, or another exception with its text. -/
inductive NavResult where
  | ok
  | timeout
  | err (msg : String)

/-- The browser-side environment of one render: what the primary
(`wait_until="networkidle"`) and fallback (`wait_until="load"`) navigations
would do, the page content and body text afterwards (`body = none` when no
`<body>` element exists), and the page's anchors. -/
structure RenderEnv where
  primary : NavResult
  fallback : NavResult
  content : String
  body : Option String
  anchors : List Anchor
  web : Web

/-- The dict `render_page_and_collect` returns, plus `attempts`: the
`wait_until` strategies of the `goto` calls the run issued, in order
(instrumentation of the embedding, recording lines 173 and 176). -/
structure RenderResult where
  attempts : List String
  html : String
  text : String
  collected_files : List FileEntry

/-- `render_page_and_collect(url)`: navigate waiting for network idleness; on
`PWTimeout` retry once waiting only for `load`, swallowing any failure of the
retry (lines 172-178); a non-timeout exception of the primary navigation
propagates. Then capture HTML, the body's visible text (`""` when no body
element), and the collected files. -/
def render_page_and_collect (env : RenderEnv) (url : String) :
    Except String RenderResult :=
  match env.primary with
  | .err msg => .error msg
  | .ok =>
    .ok { attempts := ["networkidle"], html := env.content,
          text := env.body.getD "",
          collected_files := collect_files env.web url env.anchors }
  | .timeout =>
    .ok { attempts := ["networkidle", "load"], html := env.content,
          text := env.body.getD "",
          collected_files := collect_files env.web url env.anchors }

/-! ## The submit step of `quiz_endpoint` (lines 249-284) -/

/-- The terminal outcomes of the endpoint's pipeline section: the JSON bodies
of lines 250, 259-262, 264 and 274-284.  `submitted` carries the URL POSTed
to, the JSON body sent, and the `model_solution` echoed to the caller (the
remote endpoint's reply is environment data and not constrained here). -/
inductive Outcome where
  | model_failed
  | no_payload_from_model (model_output : Json)
  | no_submit_url (solution : Json)
  | submitted (submit_url : Json) (body : Json) (model_solution : Json)

/-- The submit step's result together with the HTTP POST calls it performed,
in order (each as URL value and JSON body). -/
structure SubmitResult where
  outcome : Outcome
  posts : List (Json × Json)

/-- Lines 255-284 once a payload dict exists. `payload1` is the dict's
bindings; `aliased` records whether that dict is the same object as
`solution["payload"]` (true when it came from the model, false when line 254
synthesized a fresh one), so that the in-place writes of lines 256-257 and 268
are, or are not, visible through `solution`. -/
def submit_finish (kvs payload1 : List (String × Json)) (aliased : Bool)
    (email secret : String) : SubmitResult :=
  let submit_url := pyGet kvs "submit_url"
  let payload2 := setKey (setKey payload1 "email" (.str email)) "secret" (.str secret)
  let sol2 : Json :=
    if aliased then .obj (setKey kvs "payload" (.obj payload2)) else .obj kvs
  if jsonTruthy submit_url = false then ⟨.no_submit_url sol2, []⟩
  else
    let attach := pyGet kvs "attachment_base64"
    let payload3 :=
      if jsonTruthy attach then setKey payload2 "attachment_base64" attach
      else payload2
    let sol3 : Json :=
      if aliased then .obj (setKey kvs "payload" (.obj payload3)) else .obj kvs
    ⟨.submitted submit_url (.obj payload3) sol3, [(submit_url, .obj payload3)]⟩

/-- Lines 249-284 given the decoded solution: non-dict solutions are
`model_failed`; a `None` payload with a non-`None` answer and truthy
`submit_url` is replaced by the synthesized `\x7bemail, secret, answer\x7d`
(line 254); a payload that is a dict gets the caller identity written in and
proceeds; anything else is `no_payload_from_model` with the untouched
solution. -/
def submit_step (solution : Json) (email secret : String) : SubmitResult :=
  match solution with
  | .obj kvs =>
    match pyGet kvs "payload" with
    | .obj pkvs => submit_finish kvs pkvs true email secret
    | .null =>
      if !(pyGet kvs "answer").isNull && jsonTruthy (pyGet kvs "submit_url") then
        submit_finish kvs
          [("email", .str email), ("secret", .str secret),
           ("answer", pyGet kvs "answer")] false email secret
      else ⟨.no_payload_from_model (.obj kvs), []⟩
    | _ => ⟨.no_payload_from_model (.obj kvs), []⟩
  | _ => ⟨.model_failed, []⟩

/-- The pipeline body of `quiz_endpoint` (lines 243-284): render and collect,
call the reasoning backend on the page data (the oracle maps the prompt
inputs to a `BackendResult`), and run the submit step.  A `.error` is an
exception reaching the endpoint's catch-all (`server_error`, line 285). -/
def quiz_pipeline (env : RenderEnv) (url : String)
    (oracle : String → String → List FileEntry → BackendResult)
    (email secret : String) : Except String SubmitResult :=
  match render_page_and_collect env url with
  | .error e => .error e
  | .ok page =>
    .ok (submit_step
          (call_gemini_for_solution (oracle page.html page.text page.collected_files))
          email secret)

/-! ## Concrete inputs and auxiliary predicates used by the theorems -/

/-- The specification's ResponseParser test vector: prose around a JSON
object. -/
def c5_example_input : String :=
  "Sure, here you go: \x7b\"answer\": 42, \"submit_url\": null, \"payload\": null\x7d\nThanks"

/-- A reply whose located brace span is not decodable JSON. -/
def c2_bad_reply : String := "\x7bnot json\x7d"

/-- Whether the scanning loop would try to download this anchor: a truthy
`href` whose resolved, lowercased path ends in a recognized extension. -/
def anchor_candidate (w : Web) (url : String) : Anchor → Bool
  | .errored _ => false
  | .link none => false
  | .link (some href) =>
    href != "" && matchesExt ((w.urlpath (w.urljoin url href)).toLower)

/-- A concrete inert web environment (every GET raises, no PDF parses). -/
def noWeb : Web :=
  { urljoin := fun _ h => h, urlpath := fun p => p,
    response := fun _ => none, decode := fun _ => "",
    pdfParse := fun _ => (Except.error "unparsed" : PdfParse) }

/-- A concrete render environment whose primary navigation times out and whose
fallback navigation also fails, over a page with no body element and no
anchors. -/
def env0 : RenderEnv :=
  { primary := .timeout, fallback := .err "fallback failed",
    content := "<html></html>", body := none, anchors := [], web := noWeb }

/-! ## Helper lemmas about ordered-dict update -/

theorem getKey_setKey_self (l : List (String × Json)) (k : String) (v : Json) :
    getKey (setKey l k v) k = some v := by
  induction l with
  | nil => simp [setKey, getKey]
  | cons hd tl ih =>
    obtain ⟨k', v'⟩ := hd
    by_cases h : k' = k
    · subst h; simp [setKey, getKey]
    · simp [setKey, getKey, h, ih]

theorem getKey_setKey_ne (l : List (String × Json)) (k k' : String) (v : Json)
    (h : k' ≠ k) : getKey (setKey l k' v) k = getKey l k := by
  induction l with
  | nil => simp [setKey, getKey, h]
  | cons hd tl ih =>
    obtain ⟨k0, v0⟩ := hd
    by_cases h0 : k0 = k'
    · subst h0
      simp only [setKey, if_pos rfl, getKey]
      by_cases hk : k0 = k
      · exact absurd hk h
      · simp [hk]
    · simp only [setKey, if_neg h0, getKey]
      by_cases hk : k0 = k
      · simp [hk]
      · simp [hk, ih]

/-- Whatever payload dict reaches the submission branch, the POSTed body is an
object whose `email` and `secret` bindings are the caller-supplied values. -/
theorem submit_finish_identity (kvs p : List (String × Json)) (al : Bool)
    (e s : String) : ∀ url body sol,
    (submit_finish kvs p al e s).outcome = .submitted url body sol →
    ∃ b, body = .obj b ∧ getKey b "email" = some (.str e) ∧
      getKey b "secret" = some (.str s) := by
  intro url body sol h
  have hsec : getKey (setKey (setKey p "email" (.str e)) "secret" (.str s))
      "secret" = some (.str s) := getKey_setKey_self _ _ _
  have hem : getKey (setKey (setKey p "email" (.str e)) "secret" (.str s))
      "email" = some (.str e) := by
    rw [getKey_setKey_ne _ _ _ _ (by decide), getKey_setKey_self]
  cases hu : jsonTruthy (pyGet kvs "submit_url") with
  | false => simp [submit_finish, hu] at h
  | true =>
    cases ha : jsonTruthy (pyGet kvs "attachment_base64") with
    | false =>
      simp only [submit_finish, hu, ha, Bool.true_eq_false, if_false,
        Bool.false_eq_true, Outcome.submitted.injEq] at h
      refine ⟨setKey (setKey p "email" (.str e)) "secret" (.str s),
        h.2.1.symm, hem, hsec⟩
    | true =>
      simp only [submit_finish, hu, ha, Bool.true_eq_false, if_false, if_true,
        Bool.false_eq_true, Outcome.submitted.injEq] at h
      refine ⟨setKey (setKey (setKey p "email" (.str e)) "secret" (.str s))
          "attachment_base64" (pyGet kvs "attachment_base64"),
        h.2.1.symm, ?_, ?_⟩
      · rw [getKey_setKey_ne _ _ _ _ (by decide)]; exact hem
      · rw [getKey_setKey_ne _ _ _ _ (by decide)]; exact hsec

/-- C1: for an instruction with payload absent, answer present and a truthy
submit URL, the Submitter synthesizes the payload as exactly the dict
email, secret, answer (in that order, the caller's values); and whenever any
payload object exists — synthesized or model-supplied — the submitted body's
`email` and `secret` fields equal the caller-supplied email and secret,
overwriting model-supplied values for those keys. -/
theorem submitter_identity_fields (kvs : List (String × Json))
    (email secret : String) :
    (pyGet kvs "payload" = .null → (pyGet kvs "answer").isNull = false →
      jsonTruthy (pyGet kvs "submit_url") = true →
      jsonTruthy (pyGet kvs "attachment_base64") = false →
      submit_step (.obj kvs) email secret =
        ⟨.submitted (pyGet kvs "submit_url")
          (.obj [("email", .str email), ("secret", .str secret),
                 ("answer", pyGet kvs "answer")]) (.obj kvs),
         [(pyGet kvs "submit_url",
           .obj [("email", .str email), ("secret", .str secret),
                 ("answer", pyGet kvs "answer")])]⟩) ∧
    (∀ url body sol,
      (submit_step (.obj kvs) email secret).outcome = .submitted url body sol →
      ∃ b, body = .obj b ∧ getKey b "email" = some (.str email) ∧
        getKey b "secret" = some (.str secret)) := by
  constructor
  · intro h1 h2 h3 h4
    simp only [submit_step, h1, h2, h3, Bool.not_false, Bool.and_self]
    simp [submit_finish, h3, h4, setKey]
  · intro url body sol h
    cases hp : pyGet kvs "payload" with
    | obj pkvs =>
      rw [submit_step] at h
      simp only [hp] at h
      exact submit_finish_identity _ _ _ _ _ _ _ _ h
    | null =>
      rw [submit_step] at h
      simp only [hp] at h
      by_cases hc : (!(pyGet kvs "answer").isNull
          && jsonTruthy (pyGet kvs "submit_url")) = true
      · rw [if_pos hc] at h
        exact submit_finish_identity _ _ _ _ _ _ _ _ h
      · rw [if_neg hc] at h
        simp at h
    | bool b => rw [submit_step] at h; simp only [hp] at h; simp at h
    | num n => rw [submit_step] at h; simp only [hp] at h; simp at h
    | str t => rw [submit_step] at h; simp only [hp] at h; simp at h
    | arr l => rw [submit_step] at h; simp only [hp] at h; simp at h

/-- C1 witness: the specification's Submitter test vector — instruction
answer "blue", submit_url "https://x/test", payload null, email "a@b.com",
secret "s" yields the synthesized payload email/secret/answer exactly. -/
theorem submitter_identity_fields_witness :
    submit_step
      (.obj [("answer", .str "blue"), ("submit_url", .str "https://x/test"),
             ("payload", Json.null)]) "a@b.com" "s" =
      ⟨.submitted (.str "https://x/test")
        (.obj [("email", .str "a@b.com"), ("secret", .str "s"),
               ("answer", .str "blue")])
        (.obj [("answer", .str "blue"), ("submit_url", .str "https://x/test"),
               ("payload", Json.null)]),
       [(.str "https://x/test",
         .obj [("email", .str "a@b.com"), ("secret", .str "s"),
               ("answer", .str "blue")])]⟩ :=
  (submitter_identity_fields
    [("answer", .str "blue"), ("submit_url", .str "https://x/test"),
     ("payload", Json.null)] "a@b.com" "s").1 rfl rfl rfl rfl

/-- C6: an instruction whose payload is a model-supplied object but whose
submit_url is null yields the `no_submit_url` terminal outcome carrying the
(identity-updated) instruction, with zero HTTP POST calls performed. -/
theorem submitter_no_submit_url (kvs pkvs : List (String × Json))
    (email secret : String)
    (hp : getKey kvs "payload" = some (.obj pkvs))
    (hu : pyGet kvs "submit_url" = .null) :
    submit_step (.obj kvs) email secret =
      ⟨.no_submit_url (.obj (setKey kvs "payload"
          (.obj (setKey (setKey pkvs "email" (.str email)) "secret"
            (.str secret))))),
       []⟩ := by
  have hp' : pyGet kvs "payload" = .obj pkvs := by simp [pyGet, hp]
  rw [submit_step]
  simp only [hp']
  simp [submit_finish, hu, jsonTruthy]

/-- C6 witness: a concrete instruction with a payload object and a null
submit_url ends in `no_submit_url` and an empty POST list. -/
theorem submitter_no_submit_url_witness :
    submit_step
      (.obj [("payload", .obj [("answer", .num 7)]), ("submit_url", Json.null)])
      "a@b.com" "s" =
      ⟨.no_submit_url (.obj
          [("payload", .obj [("answer", .num 7), ("email", .str "a@b.com"),
                             ("secret", .str "s")]),
           ("submit_url", Json.null)]),
       []⟩ :=
  submitter_no_submit_url
    [("payload", .obj [("answer", .num 7)]), ("submit_url", Json.null)]
    [("answer", .num 7)] "a@b.com" "s" rfl rfl

/-- C10: when the model-supplied instruction contains a payload object, the
caller's email and secret are written into that same object before any outcome
is produced, and the solution echoed to the caller (the `solution` of
`no_submit_url`, the `model_solution` of the submission outcome) aliases it:
the echoed solution's payload carries the caller's email and secret (and, for
a submission, is the very object POSTed). -/
theorem quiz_alias_payload (kvs pkvs : List (String × Json))
    (email secret : String)
    (hp : getKey kvs "payload" = some (.obj pkvs)) :
    (∀ sol, (submit_step (.obj kvs) email secret).outcome = .no_submit_url sol →
       ∃ skvs b, sol = .obj skvs ∧ getKey skvs "payload" = some (.obj b) ∧
         getKey b "email" = some (.str email) ∧
         getKey b "secret" = some (.str secret)) ∧
    (∀ url body sol,
       (submit_step (.obj kvs) email secret).outcome = .submitted url body sol →
       ∃ skvs b, sol = .obj skvs ∧ getKey skvs "payload" = some (.obj b) ∧
         body = .obj b ∧ getKey b "email" = some (.str email) ∧
         getKey b "secret" = some (.str secret)) := by
  have hp' : pyGet kvs "payload" = .obj pkvs := by simp [pyGet, hp]
  have hsec : getKey (setKey (setKey pkvs "email" (.str email)) "secret"
      (.str secret)) "secret" = some (.str secret) := getKey_setKey_self _ _ _
  have hem : getKey (setKey (setKey pkvs "email" (.str email)) "secret"
      (.str secret)) "email" = some (.str email) := by
    rw [getKey_setKey_ne _ _ _ _ (by decide), getKey_setKey_self]
  constructor
  · intro sol h
    rw [submit_step] at h
    simp only [hp'] at h
    cases hu : jsonTruthy (pyGet kvs "submit_url") with
    | false =>
      simp only [submit_finish, hu, if_pos, Outcome.no_submit_url.injEq,
        if_true] at h
      refine ⟨_, _, h.symm, getKey_setKey_self _ _ _, hem, hsec⟩
    | true => simp [submit_finish, hu] at h
  · intro url body sol h
    rw [submit_step] at h
    simp only [hp'] at h
    cases hu : jsonTruthy (pyGet kvs "submit_url") with
    | false => simp [submit_finish, hu] at h
    | true =>
      cases ha : jsonTruthy (pyGet kvs "attachment_base64") with
      | false =>
        simp only [submit_finish, hu, ha, Bool.true_eq_false, if_false,
          Bool.false_eq_true, if_true, Outcome.submitted.injEq] at h
        exact ⟨_, _, h.2.2.symm, getKey_setKey_self _ _ _, h.2.1.symm, hem, hsec⟩
      | true =>
        simp only [submit_finish, hu, ha, Bool.true_eq_false, if_false,
          Bool.false_eq_true, if_true, Outcome.submitted.injEq] at h
        refine ⟨_, _, h.2.2.symm, getKey_setKey_self _ _ _, h.2.1.symm, ?_, ?_⟩
        · rw [getKey_setKey_ne _ _ _ _ (by decide)]; exact hem
        · rw [getKey_setKey_ne _ _ _ _ (by decide)]; exact hsec

/-- C10 witness: a model payload carrying its own email value is echoed back
with the caller's email "a@b.com" and secret "s" written in. -/
theorem quiz_alias_payload_witness :
    ∃ skvs b,
      Json.obj [("payload", Json.obj
        [("email", Json.str "a@b.com"), ("answer", Json.num 1),
         ("secret", Json.str "s")])] = .obj skvs ∧
      getKey skvs "payload" = some (.obj b) ∧
      getKey b "email" = some (.str "a@b.com") ∧
      getKey b "secret" = some (.str "s") :=
  (quiz_alias_payload
    [("payload", .obj [("email", .str "model@wrong"), ("answer", .num 1)])]
    [("email", .str "model@wrong"), ("answer", .num 1)]
    "a@b.com" "s" rfl).1
    (Json.obj [("payload", Json.obj
      [("email", Json.str "a@b.com"), ("answer", Json.num 1),
       ("secret", Json.str "s")])]) rfl

/-- C2 counterexample: the reply "\x7bnot json\x7d" has an undecodable brace
span, yet the pipeline outcome is not `model_failed` (the decode failure is
swallowed by the reasoning wrapper's broad except, which returns the
`model_error` sentinel dict, so the endpoint reports `no_payload_from_model`
instead). -/
theorem decode_failure_not_model_failed :
    json_loads (locate_json_span c2_bad_reply) = none ∧
    (submit_step (call_gemini_for_solution (.ok c2_bad_reply))
        "user@example.com" "sec").outcome ≠ Outcome.model_failed := by
  constructor
  · rfl
  · have he : (submit_step (call_gemini_for_solution (.ok c2_bad_reply))
        "user@example.com" "sec").outcome =
        Outcome.no_payload_from_model
          (sentinel_solution (decode_error_message c2_bad_reply)) := by rfl
    rw [he]
    intro hcontra
    exact Outcome.noConfusion hcontra

/-- C2 amended: for every raw reasoning reply whose located JSON span fails
to decode, the reasoning wrapper catches the decode failure and returns the
`model_error` sentinel instruction (a dict), so the pipeline reports
`no_payload_from_model` to the caller — not `model_failed` — and does not
crash. -/
theorem decode_failure_reports_no_payload (raw email secret : String)
    (h : json_loads (locate_json_span raw) = none) :
    call_gemini_for_solution (.ok raw) =
      sentinel_solution (decode_error_message (locate_json_span raw)) ∧
    (submit_step (call_gemini_for_solution (.ok raw)) email secret).outcome =
      Outcome.no_payload_from_model
        (sentinel_solution (decode_error_message (locate_json_span raw))) ∧
    (submit_step (call_gemini_for_solution (.ok raw)) email secret).outcome ≠
      Outcome.model_failed := by
  have hc : call_gemini_for_solution (.ok raw) =
      sentinel_solution (decode_error_message (locate_json_span raw)) := by
    rw [call_gemini_for_solution]
    simp only [h]
  have hs : (submit_step (call_gemini_for_solution (.ok raw)) email secret).outcome =
      Outcome.no_payload_from_model
        (sentinel_solution (decode_error_message (locate_json_span raw))) := by
    rw [hc]
    rfl
  refine ⟨hc, hs, ?_⟩
  rw [hs]
  intro hcontra
  exact Outcome.noConfusion hcontra

/-- C2 amended witness: the undecodable reply "\x7bnot json\x7d" at concrete
caller identity. -/
theorem decode_failure_reports_no_payload_witness :
    call_gemini_for_solution (.ok c2_bad_reply) =
      sentinel_solution (decode_error_message (locate_json_span c2_bad_reply)) ∧
    (submit_step (call_gemini_for_solution (.ok c2_bad_reply)) "a@b.com" "s").outcome =
      Outcome.no_payload_from_model
        (sentinel_solution (decode_error_message (locate_json_span c2_bad_reply))) ∧
    (submit_step (call_gemini_for_solution (.ok c2_bad_reply)) "a@b.com" "s").outcome ≠
      Outcome.model_failed :=
  decode_failure_reports_no_payload c2_bad_reply "a@b.com" "s" rfl

/-- C4: on any failure of the reasoning call, the client propagates no
exception: it returns a sentinel instruction whose answer, submit_url and
payload are null, whose reason is "model_error", and which embeds the failure
detail. -/
theorem reasoning_failure_sentinel (detail : String) :
    call_gemini_for_solution (.exn detail) = sentinel_solution detail ∧
    ∃ kvs, call_gemini_for_solution (.exn detail) = .obj kvs ∧
      pyGet kvs "answer" = .null ∧ pyGet kvs "submit_url" = .null ∧
      pyGet kvs "payload" = .null ∧ pyGet kvs "reason" = .str "model_error" ∧
      pyGet kvs "model_exception" = .str detail := by
  refine ⟨rfl, [("answer", .null), ("submit_url", .null), ("payload", .null),
    ("reason", .str "model_error"), ("model_exception", .str detail)],
    rfl, rfl, rfl, rfl, rfl, rfl⟩

/-- C5: for every raw model output containing a brace-span (a first opening
brace strictly before the last closing brace), the parser decodes exactly the
substring from the first opening brace to the last closing brace; the
specification's prose-wrapped test vector decodes to
answer 42 / submit_url null / payload null; and when no such span exists the
raw text is decoded as-is. -/
theorem response_span_decoding (raw : String) :
    (∀ s e, pyFind raw lbrace = some s → pyRfind raw rbrace = some e →
       s < e →
       locate_json_span raw = pySlice raw s (e + 1) ∧
       ∀ v, json_loads (pySlice raw s (e + 1)) = some v →
         call_gemini_for_solution (.ok raw) = v) ∧
    ((pyFind raw lbrace = none ∨ pyRfind raw rbrace = none ∨
        (∀ s e, pyFind raw lbrace = some s → pyRfind raw rbrace = some e →
          ¬ s < e)) →
       locate_json_span raw = raw ∧
       ∀ v, json_loads raw = some v → call_gemini_for_solution (.ok raw) = v) ∧
    call_gemini_for_solution (.ok c5_example_input) =
      .obj [("answer", .num 42), ("submit_url", Json.null),
            ("payload", Json.null)] := by
  refine ⟨?_, ?_, by rfl⟩
  · intro s e hs he hlt
    have hloc : locate_json_span raw = pySlice raw s (e + 1) := by
      rw [locate_json_span, hs, he]
      exact if_pos hlt
    refine ⟨hloc, fun v hv => ?_⟩
    rw [call_gemini_for_solution, hloc, hv]
  · intro hno
    have hloc : locate_json_span raw = raw := by
      rw [locate_json_span]
      rcases hf : pyFind raw lbrace with _ | s
      · rfl
      · rcases hr : pyRfind raw rbrace with _ | e
        · rfl
        · rcases hno with h | h | h
          · rw [hf] at h; exact absurd h (by simp)
          · rw [hr] at h; exact absurd h (by simp)
          · exact if_neg (h s e hf hr)
    refine ⟨hloc, fun v hv => ?_⟩
    rw [call_gemini_for_solution, hloc, hv]

/-- C3: a declared content-length above the cap fails with TooLarge before
any body bytes are read (zero bytes consumed); a body whose true length
exceeds the cap fails with TooLarge even when the header is absent or
understated; a non-success HTTP status fails with HttpError; and every
successfully returned byte sequence has length at most max_bytes. -/
theorem download_size_cap (resp : HttpResponse) (maxB : Nat) :
    (400 ≤ resp.status →
       download_file resp maxB = (.error (.httpError resp.status), 0)) ∧
    (resp.status < 400 → ∀ n, resp.contentLength = some n → maxB < n →
       download_file resp maxB = (.error (.valueError "Remote file too large"), 0)) ∧
    (resp.status < 400 → maxB < resp.body.length →
       ∃ msg, (download_file resp maxB).1 = .error (.valueError msg)) ∧
    (∀ bs ct, (download_file resp maxB).1 = .ok (bs, ct) → bs.length ≤ maxB) := by
  refine ⟨?_, ?_, ?_, ?_⟩
  · intro h
    rw [download_file, if_pos h]
  · intro hlt n hcl hn
    have hne : resp.contentLength.getD 0 ≠ 0 ∧ maxB < resp.contentLength.getD 0 := by
      rw [hcl]
      simp only [Option.getD_some]
      exact ⟨by omega, hn⟩
    rw [download_file, if_neg (show ¬ 400 ≤ resp.status by omega), if_pos hne]
  · intro hlt hbig
    rw [download_file, if_neg (by omega : ¬ 400 ≤ resp.status)]
    by_cases hcl : resp.contentLength.getD 0 ≠ 0 ∧ maxB < resp.contentLength.getD 0
    · rw [if_pos hcl]
      exact ⟨"Remote file too large", rfl⟩
    · rw [if_neg hcl, if_pos hbig]
      exact ⟨"Downloaded file exceeds limit", rfl⟩
  · intro bs ct h
    by_cases hst : 400 ≤ resp.status
    · rw [download_file, if_pos hst] at h
      exact absurd h (by simp)
    · rw [download_file, if_neg hst] at h
      by_cases hcl : resp.contentLength.getD 0 ≠ 0 ∧ maxB < resp.contentLength.getD 0
      · rw [if_pos hcl] at h
        exact absurd h (by simp)
      · rw [if_neg hcl] at h
        by_cases hbig : maxB < resp.body.length
        · rw [if_pos hbig] at h
          exact absurd h (by simp)
        · rw [if_neg hbig] at h
          simp only [Except.ok.injEq, Prod.mk.injEq] at h
          rw [← h.1]
          omega

/-- C3 witness: a 200 response declaring 6000001 bytes fails fast with zero
body bytes consumed. -/
theorem download_size_cap_witness :
    download_file ⟨200, some 6000001, [1, 2, 3], "application/pdf"⟩ 5000000 =
      (.error (.valueError "Remote file too large"), 0) :=
  (download_size_cap ⟨200, some 6000001, [1, 2, 3], "application/pdf"⟩
    5000000).2.1 (by decide) 6000001 rfl (by decide)

/-- C8: extraction returns null (never raises) when PDF parsing fails; on
success it returns the per-page texts joined by a blank-line separator in page
order, a page with no extractable text contributing the empty string rather
than being omitted. -/
theorem extract_text_pdf_tolerant (parsed : PdfParse) :
    (∀ e, parsed = .error e → extract_text_from_pdf_bytes parsed = none) ∧
    (∀ pages, parsed = .ok pages →
       ∃ ts : List String, extract_text_from_pdf_bytes parsed =
         some (String.intercalate "\n\n" ts) ∧
         ts.length = pages.length ∧
         ∀ (i : Nat) (h : i < ts.length) (h' : i < pages.length),
           ts.get ⟨i, h⟩ = (pages.get ⟨i, h'⟩).getD "") := by
  constructor
  · intro e he
    subst he
    rfl
  · intro pages hp
    subst hp
    refine ⟨pages.map (fun t => t.getD ""), ?_, by simp, ?_⟩
    · rfl
    · intro i h h'
      simp

/-- C9: when the primary network-idle navigation times out, the renderer
attempts the fallback load-event navigation exactly once (the attempts are
precisely ["networkidle", "load"]); the result is the same whatever the
fallback does (even if it also fails); and the available HTML and visible text
are still returned, the text being "" when no body element exists. -/
theorem renderer_timeout_fallback (env : RenderEnv) (url : String)
    (h : env.primary = .timeout) :
    render_page_and_collect env url =
      .ok { attempts := ["networkidle", "load"], html := env.content,
            text := env.body.getD "",
            collected_files := collect_files env.web url env.anchors } ∧
    (∀ fb, render_page_and_collect { env with fallback := fb } url =
      render_page_and_collect env url) ∧
    (env.body = none →
      ∀ r, render_page_and_collect env url = .ok r → r.text = "") := by
  refine ⟨?_, ?_, ?_⟩
  · rw [render_page_and_collect, h]
  · intro fb
    rw [render_page_and_collect, render_page_and_collect]
  · intro hb r hr
    rw [render_page_and_collect, h, hb] at hr
    simp only [Except.ok.injEq] at hr
    rw [← hr]
    rfl

/-- C9 witness: a concrete environment whose primary navigation times out
and whose fallback raises still renders, with empty visible text. -/
theorem renderer_timeout_fallback_witness :
    render_page_and_collect env0 "http://example.com" =
      .ok { attempts := ["networkidle", "load"], html := "<html></html>",
            text := "", collected_files := [] } :=
  (renderer_timeout_fallback env0 "http://example.com" rfl).1

/-- C7: the collector returns at most one resource; an anchor whose
processing raised is skipped; a matching candidate whose download fails is
skipped and scanning continues; a page with no matching links yields no
resources; and in that case the pipeline still proceeds to the reasoning call
(on an empty file list) and a terminal outcome. -/
theorem collector_single_resource (w : Web) (url : String)
    (anchors : List Anchor) :
    (collect_files w url anchors).length ≤ 1 ∧
    (∀ msg rest, collect_files w url (.errored msg :: rest) =
       collect_files w url rest) ∧
    (∀ href rest, href ≠ "" →
       matchesExt ((w.urlpath (w.urljoin url href)).toLower) = true →
       tryDownload w (w.urljoin url href) = none →
       collect_files w url (.link (some href) :: rest) =
         collect_files w url rest) ∧
    ((∀ a ∈ anchors, anchor_candidate w url a = false) →
       collect_files w url anchors = []) ∧
    (∀ env : RenderEnv, env.primary = .ok → env.web = w →
       env.anchors = anchors →
       (∀ a ∈ anchors, anchor_candidate w url a = false) →
       ∀ oracle email secret,
         quiz_pipeline env url oracle email secret =
           .ok (submit_step
                 (call_gemini_for_solution
                   (oracle env.content (env.body.getD "") []))
                 email secret)) := by
  have hlen : ∀ l : List Anchor, (collect_files w url l).length ≤ 1 := by
    intro l
    induction l with
    | nil => simp [collect_files]
    | cons a rest ih =>
      cases a with
      | errored m => simpa [collect_files] using ih
      | link h? =>
        cases h? with
        | none => simpa [collect_files] using ih
        | some href =>
          by_cases h1 : href = ""
          · simpa [collect_files, h1] using ih
          · rw [collect_files, if_neg h1]
            by_cases h2 : matchesExt ((w.urlpath (w.urljoin url href)).toLower)
            · rw [if_pos h2]
              cases hd : tryDownload w (w.urljoin url href) with
              | none => exact ih
              | some v => simp
            · rw [if_neg h2]
              exact ih
  have hempty : ∀ l : List Anchor,
      (∀ a ∈ l, anchor_candidate w url a = false) →
      collect_files w url l = [] := by
    intro l
    induction l with
    | nil => intro _; rfl
    | cons a rest ih =>
      intro hall
      have hhd := hall a (by simp)
      have htl := fun a ha => hall a (List.mem_cons_of_mem _ ha)
      cases a with
      | errored m => rw [collect_files]; exact ih htl
      | link h? =>
        cases h? with
        | none => rw [collect_files]; exact ih htl
        | some href =>
          by_cases h1 : href = ""
          · rw [collect_files, if_pos h1]
            exact ih htl
          · rw [anchor_candidate] at hhd
            have h2 : matchesExt ((w.urlpath (w.urljoin url href)).toLower) = false := by
              rcases Bool.and_eq_false_iff.mp hhd with h | h
              · exact absurd (bne_iff_ne.mpr h1) (by rw [h]; exact Bool.false_ne_true)
              · exact h
            rw [collect_files, if_neg h1, if_neg (by rw [h2]; exact Bool.false_ne_true)]
            exact ih htl
  refine ⟨hlen anchors, ?_, ?_, hempty anchors, ?_⟩
  · intro msg rest
    rw [collect_files]
  · intro href rest h1 h2 h3
    rw [collect_files, if_neg h1, if_pos h2, h3]
  · intro env h1 h2 h3 hall oracle email secret
    rw [quiz_pipeline, render_page_and_collect, h1]
    have hcf : collect_files env.web url env.anchors = [] := by
      rw [h2, h3]
      exact hempty anchors hall
    rw [hcf]
